import Mathlib

/-!
Verification of the session/request layer of the lucia-auth repository.

The development shallowly embeds the TypeScript sources:
* the query-block SQL builder (`resolveQueryBlock` / `resolveQueryBlocks`),
* the mysql2 adapter (`transaction`, `setUser`, `setSession`),
* `deleteNonPrimaryKey` of the Prisma adapter,
* the `AuthRequest` class (`validate`, `validateBearerToken`, constructor)
  together with `isValidRequestOrigin`.

Parts of the core library that are not present in the repository snapshot
(the expiration policy, `Auth.validateSession`, the URL helpers) are modelled
from the specification; each such definition says so in its doc comment.
-/

namespace Lucia

/-- The domain error kinds (`LuciaError` messages) used across the library. -/
inductive LuciaErrorMsg
  | AUTH_INVALID_SESSION_ID
  | AUTH_INVALID_USER_ID
  | AUTH_INVALID_KEY_ID
  | AUTH_INVALID_PASSWORD
  | AUTH_DUPLICATE_SESSION_ID
  | AUTH_DUPLICATE_KEY_ID
deriving DecidableEq, Repr

/-- The three-state freshness classification of a session. -/
inductive SessionState
  | active
  | idle
  | dead
deriving DecidableEq, Repr

/-- Modelled from the spec: the ExpirationPolicy pure function
`state(now, activePeriodExpiresAt, idlePeriodExpiresAt)` (the lucia core file
is not in the repository snapshot; the behavior matches the session-state
documentation shipped in the snapshot): `now < activePeriodExpiresAt` is
active, `activePeriodExpiresAt <= now < idlePeriodExpiresAt` is idle,
`now >= idlePeriodExpiresAt` is dead. Timestamps are Unix milliseconds. -/
def sessionState (now activePeriodExpiresAt idlePeriodExpiresAt : Int) :
    SessionState :=
  if now < activePeriodExpiresAt then .active
  else if now < idlePeriodExpiresAt then .idle
  else .dead

end Lucia

namespace Util

/-- Splitting a char list at every occurrence of a separator character
(the `String.prototype.split` used by the cookie/bearer parsers). -/
def splitChars (sep : Char) : List Char → List (List Char)
  | [] => [[]]
  | c :: rest =>
    let r := splitChars sep rest
    if c = sep then [] :: r
    else (c :: r.headD []) :: r.tail

end Util

namespace Query
/-!
Embedding of the query-block SQL builder from the mysql/postgresql adapter
source (`resolveQueryBlock`, `createOperator.resolveQueryBlocks`).

A template literal such as `WHERE ${col} ${comp} $${paramCount + 1}` is
embedded as a list of `Chunk`s: every `$${e}` splice becomes
`Chunk.placeholder e` and the surrounding text becomes `Chunk.text`; the
final SQL statement is the concatenation of the chunks in order.
-/

/-- Column values accepted by the query builder
(`string | number | null | bigint | boolean`). -/
inductive ColumnValue
  | str (s : String)
  | num (n : Int)
  | null
  | boolean (b : Bool)
deriving DecidableEq, Repr

/-- A `WHERE` condition block (`{type: "WHERE", column, comparator, value}`). -/
structure WhereBlock where
  column : String
  comparator : String
  value : ColumnValue
deriving DecidableEq, Repr

/-- The query-block union type of the source. -/
inductive Block
  | innerJoin (targetTable targetColumn column : String)
  | selectFrom (table : String) (columns : List String)
  | returning (columns : List String)
  | insertInto (table : String) (values : List (String × ColumnValue))
  | whereCond (wb : WhereBlock)
  | andCond (whereBlocks : List WhereBlock)
  | deleteFrom (table : String)
  | update (table : String) (values : List (String × ColumnValue))
deriving Repr

/-- One piece of a resolved SQL statement: literal text, or a positional
placeholder `$n` produced by a `$${...}` splice in the source template. -/
inductive Chunk
  | text (s : String)
  | placeholder (n : Nat)
deriving DecidableEq, Repr

/-- The `{queryChunk, params}` record returned by `resolveQueryBlock`. -/
structure ResolvedBlock where
  queryChunk : List Chunk
  params : List ColumnValue
deriving Repr

/-- `escapeName` from the source: `*` passes through, anything else is
wrapped in double quotes. -/
def escapeName (val : String) : String :=
  if val = "*" then val else "\"" ++ val ++ "\""

/-- The placeholder run `$${paramCount + i + 1}` for `i` over the value
positions of an `INSERT INTO` block. -/
def placeholderList (paramCount n : Nat) : List Chunk :=
  (List.range n).map (fun i => Chunk.placeholder (paramCount + i + 1))

/-- Joining a chunk list with a literal text separator (the implicit
`Array.prototype.join(",")` of a template splice). -/
def intersperseText (sep : String) : List Chunk → List Chunk
  | [] => []
  | [c] => [c]
  | c :: rest => c :: Chunk.text sep :: intersperseText sep rest

/-- Joining chunk groups with a literal text separator, used where the
source joins a mapped array of strings. -/
def joinChunkGroups (sep : String) : List (List Chunk) → List Chunk
  | [] => []
  | [g] => g
  | g :: rest => g ++ (Chunk.text sep :: joinChunkGroups sep rest)

/-- `resolveQueryBlock(block, paramCount)` from the source, with template
literals embedded as chunk lists. `values` records are embedded as ordered
key/value pair lists (`Object.keys` enumerates the keys in that order,
so `keys.map((k) => block.values[k])` is the list of second components). -/
def resolveQueryBlock (block : Block) (paramCount : Nat) : ResolvedBlock :=
  match block with
  | .deleteFrom table =>
      ⟨[.text ("DELETE FROM " ++ escapeName table)], []⟩
  | .innerJoin targetTable targetColumn column =>
      ⟨[.text ("INNER JOIN " ++ escapeName targetTable ++ " ON " ++
          targetColumn ++ " = " ++ column)], []⟩
  | .insertInto table values =>
      let keys := values.map Prod.fst
      ⟨[Chunk.text ("INSERT INTO " ++ escapeName table ++ " (" ++
          String.intercalate "," (keys.map escapeName) ++ ") VALUES (")] ++
        intersperseText "," (placeholderList paramCount keys.length) ++
        [Chunk.text ")"],
       values.map Prod.snd⟩
  | .returning columns =>
      ⟨[.text ("RETURNING " ++ String.intercalate "," columns)], []⟩
  | .selectFrom table columns =>
      ⟨[.text ("SELECT " ++ String.intercalate "," columns ++ " FROM " ++
          escapeName table)], []⟩
  | .whereCond wb =>
      ⟨[Chunk.text ("WHERE " ++ wb.column ++ " " ++ wb.comparator ++ " "),
        Chunk.placeholder (paramCount + 1)],
       [wb.value]⟩
  | .update table values =>
      let keys := values.map Prod.fst
      ⟨[Chunk.text ("UPDATE " ++ escapeName table ++ " SET ")] ++
        joinChunkGroups ","
          (keys.enum.map (fun p =>
            [Chunk.text (escapeName p.2 ++ " = "),
             Chunk.placeholder (paramCount + p.1 + 1)])),
       values.map Prod.snd⟩
  | .andCond whereBlocks =>
      let resolvedConditionQueryBlocks := whereBlocks.enum.map (fun p =>
        (⟨[Chunk.text (p.2.column ++ " " ++ p.2.comparator ++ " "),
           Chunk.placeholder (paramCount + 1 + p.1)],
          [p.2.value]⟩ : ResolvedBlock))
      ⟨Chunk.text "WHERE " ::
        joinChunkGroups " AND "
          (resolvedConditionQueryBlocks.map ResolvedBlock.queryChunk),
       (resolvedConditionQueryBlocks.map ResolvedBlock.params).flatten⟩

/-- The `resolveQueryBlocks` loop of `createOperator`: resolves each block
against the number of parameters accumulated so far, collects the chunks,
and joins them with a single space. -/
def resolveQueryBlocks (queryBlocks : List Block) : ResolvedBlock :=
  let acc := queryBlocks.foldl
    (fun (acc : List (List Chunk) × List ColumnValue) (queryBlock : Block) =>
      let resolvedBlock := resolveQueryBlock queryBlock acc.2.length
      (acc.1 ++ [resolvedBlock.queryChunk], acc.2 ++ resolvedBlock.params))
    ([], [])
  ⟨joinChunkGroups " " acc.1, acc.2⟩

/-- The positional placeholder numbers of a statement, in order of
appearance. -/
def phOfChunks : List Chunk → List Nat
  | [] => []
  | Chunk.text _ :: rest => phOfChunks rest
  | Chunk.placeholder n :: rest => n :: phOfChunks rest

end Query

namespace Mysql2Adapter
/-!
Embedding of the mysql2 adapter source: the `transaction` helper, `setUser`
(atomic user+key insertion) and `setSession` (constraint-violation
translation). The underlying database is modelled as lists of rows; the
errors a MySQL server raises on constraint violations are modelled as
`QueryError` values carrying the code/errno/message signatures the adapter
inspects (`ER_DUP_ENTRY`/1062 with a message naming the `PRIMARY` index for
duplicate primary keys, errno 1452 with a message naming the `user_id`
column for foreign-key violations).
-/

open Lucia

/-- The fields of a mysql2 `QueryError` that the adapter inspects. -/
structure QueryError where
  code : String
  errno : Nat
  message : String
deriving DecidableEq, Repr

/-- Whether the second char list occurs at the head of the first. -/
def charsMatchAt : List Char → List Char → Bool
  | [], _ => true
  | _ :: _, [] => false
  | a :: as, b :: bs => a = b && charsMatchAt as bs

/-- Whether the second char list occurs anywhere inside the first. -/
def charsContain : List Char → List Char → Bool
  | [], pat => charsMatchAt pat []
  | c :: rest, pat => charsMatchAt pat (c :: rest) || charsContain rest pat

/-- `message.includes(...)` of the source. -/
def strContains (s pat : String) : Bool :=
  charsContain s.data pat.data

/-- A row of the `auth_user` table. -/
structure UserRow where
  id : String
  attributes : List (String × String)
deriving DecidableEq, Repr

/-- A row of the `auth_key` table. -/
structure KeyRow where
  id : String
  user_id : String
  hashed_password : Option String
  primary_key : Bool
deriving DecidableEq, Repr

/-- A row of the `auth_session` table. -/
structure SessionRow where
  id : String
  user_id : String
  active_expires : Int
  idle_expires : Int
deriving DecidableEq, Repr

/-- The visible state of the MySQL database. -/
structure MySQLDB where
  users : List UserRow
  keys : List KeyRow
  sessions : List SessionRow
deriving DecidableEq, Repr

/-- The error a MySQL server raises for a duplicate primary key
(`ER_DUP_ENTRY`, errno 1062, message naming the `PRIMARY` index). -/
def dupPrimaryError : QueryError :=
  ⟨"ER_DUP_ENTRY", 1062, "Duplicate entry for key PRIMARY"⟩

/-- The error a MySQL server raises for a foreign-key violation on a
`user_id` column (errno 1452, message naming the constrained column). -/
def fkUserIdError : QueryError :=
  ⟨"ER_NO_REFERENCED_ROW_2", 1452,
    "Cannot add or update a child row: a foreign key constraint fails, FOREIGN KEY (`user_id`) REFERENCES"⟩

/-- `INSERT INTO auth_user`: fails on a duplicate `id`, otherwise appends
the row. -/
def insertUserRow (db : MySQLDB) (u : UserRow) : Except QueryError MySQLDB :=
  if db.users.any (fun r => r.id = u.id) then
    .error dupPrimaryError
  else
    .ok { db with users := db.users ++ [u] }

/-- `INSERT INTO auth_key`: fails on a duplicate `id` or an absent
referenced user, otherwise appends the row. -/
def insertKeyRow (db : MySQLDB) (k : KeyRow) : Except QueryError MySQLDB :=
  if db.keys.any (fun r => r.id = k.id) then
    .error dupPrimaryError
  else if ¬ db.users.any (fun r => r.id = k.user_id) then
    .error fkUserIdError
  else
    .ok { db with keys := db.keys ++ [k] }

/-- `INSERT INTO auth_session`: fails on a duplicate `id` or an absent
referenced user, otherwise appends the row. -/
def insertSessionRow (db : MySQLDB) (s : SessionRow) :
    Except QueryError MySQLDB :=
  if db.sessions.any (fun r => r.id = s.id) then
    .error dupPrimaryError
  else if ¬ db.users.any (fun r => r.id = s.user_id) then
    .error fkUserIdError
  else
    .ok { db with sessions := db.sessions ++ [s] }

/-- The `transaction` helper of the source, as it actually behaves. The
helper checks out a dedicated connection from the pool and runs
BEGIN/COMMIT/ROLLBACK on that connection, but `execute` issues its inserts
through the pool-scoped `operator` (built once over the pool, never over
the checked-out connection), so every insert autocommits on some other
pooled connection. The commit and the rollback therefore govern a
connection on which no statement ever ran: on success the reached state
stands, and on error the rollback undoes nothing — the state `execute` had
reached (including a partial insert) persists, and the error is rethrown.
An executor returns the error it stopped at (if any) together with the
state it had reached at that point. -/
def transaction (db : MySQLDB)
    (execute : MySQLDB → Option QueryError × MySQLDB) :
    Option QueryError × MySQLDB :=
  match execute db with
  | (none, db2) => (none, db2)
  | (some e, db2) => (some e, db2)

/-- The executor body of `setUser` when a key is given: insert the user row,
then the key row; stopping at the first error leaves the partial state
(user inserted, key missing) in place. -/
def setUserExecute (u : UserRow) (k : KeyRow) (db : MySQLDB) :
    Option QueryError × MySQLDB :=
  match insertUserRow db u with
  | .error e => (some e, db)
  | .ok db1 =>
    match insertKeyRow db1 k with
    | .error e => (some e, db1)
    | .ok db2 => (none, db2)

/-- An adapter call either succeeds, raises a `LuciaError`, or rethrows the
raw storage error verbatim. -/
inductive AdapterFailure
  | lucia (m : LuciaErrorMsg)
  | raw (e : QueryError)
deriving DecidableEq, Repr

/-- The catch block of the `setUser` of the adapter: a duplicate-primary-key
signature becomes `AUTH_DUPLICATE_KEY_ID`, everything else is rethrown. -/
def setUserCatch (e : QueryError) : AdapterFailure :=
  if e.code = "ER_DUP_ENTRY" ∧ strContains e.message "PRIMARY" then
    .lucia .AUTH_DUPLICATE_KEY_ID
  else
    .raw e

/-- `setUser(userId, attributes, key)` of the mysql2 adapter: with a key the
two inserts run inside `transaction`; without one the user row is inserted
directly. Errors pass through the catch block. -/
def setUser (db : MySQLDB) (userId : String)
    (attributes : List (String × String)) (key : Option KeyRow) :
    Option AdapterFailure × MySQLDB :=
  let user : UserRow := ⟨userId, attributes⟩
  match key with
  | some k =>
    match transaction db (setUserExecute user k) with
    | (none, db2) => (none, db2)
    | (some e, db2) => (some (setUserCatch e), db2)
  | none =>
    match insertUserRow db user with
    | .ok db2 => (none, db2)
    | .error e => (some (setUserCatch e), db)

/-- The catch block of the `setSession` of the adapter: errno 1452 with a message
naming `user_id` becomes `AUTH_INVALID_USER_ID`; `ER_DUP_ENTRY` with a
message naming `PRIMARY` becomes `AUTH_DUPLICATE_SESSION_ID`; anything else
is rethrown verbatim. -/
def setSessionCatch (e : QueryError) : AdapterFailure :=
  if e.errno = 1452 ∧ strContains e.message "(`user_id`)" then
    .lucia .AUTH_INVALID_USER_ID
  else if e.code = "ER_DUP_ENTRY" ∧ strContains e.message "PRIMARY" then
    .lucia .AUTH_DUPLICATE_SESSION_ID
  else
    .raw e

/-- `setSession(session)` of the mysql2 adapter: the core insert with errors
passed through `setSessionCatch`. -/
def setSession (db : MySQLDB) (s : SessionRow) :
    Option AdapterFailure × MySQLDB :=
  match insertSessionRow db s with
  | .ok db2 => (none, db2)
  | .error e => (some (setSessionCatch e), db)

end Mysql2Adapter

namespace PrismaAdapter
/-!
Embedding of `deleteNonPrimaryKey` from the Prisma adapter: a
`deleteMany({where: {id: keyId, primary_key: false}})` over the key table.
-/

/-- `deleteNonPrimaryKey(keyId)` removes exactly the rows whose `id` equals
`keyId` and whose `primary_key` field is `false`. -/
def deleteNonPrimaryKey (keys : List Mysql2Adapter.KeyRow) (keyId : String) :
    List Mysql2Adapter.KeyRow :=
  keys.filter (fun k => ¬ (k.id = keyId ∧ k.primary_key = false))

end PrismaAdapter

namespace Request
/-!
Embedding of the `AuthRequest` class and `isValidRequestOrigin` from the
request-handling source file.

JavaScript specifics captured by the model:
* an optional TS field compared against `null` in the source is embedded as
  `TSOpt` (undefined / null / value), since `config.host !== null` and
  `config.host ?? null` distinguish the two empty states;
* a promise within one request is either settled with a value or never
  settles: a `throw` inside a `new Promise(async (resolve) => ...)` executor
  rejects only the implicit promise of the async closure, so the constructed
  promise never settles and an `await` on it blocks forever;
* calls are sequential (single-threaded cooperative scheduling), so each
  method runs on the state left by the previous one.
-/

open Lucia

/-- The value of an optional TypeScript field: undefined, null, or a
value. -/
inductive TSOpt (α : Type)
  | undef
  | nullv
  | val (a : α)
deriving DecidableEq, Repr

/-- `x ?? null` viewed as an `Option`: undefined and null collapse to
`none`. -/
def TSOpt.toOption {α : Type} : TSOpt α → Option α
  | .val a => some a
  | _ => none

/-- The `allowedSubDomains` configuration: a wildcard or an explicit list. -/
inductive SubdomainSetting
  | wildcard
  | list (subs : List String)
deriving DecidableEq, Repr

/-- `CSRFProtectionConfiguration` from the source
(`{host?, hostHeader?, allowedSubDomains?}`). -/
structure CSRFProtectionConfiguration where
  host : TSOpt String := .undef
  hostHeader : Option String := none
  allowedSubDomains : Option SubdomainSetting := none
deriving DecidableEq, Repr

/-- `LuciaRequest` from the source: method, optional URL, and headers. -/
structure LuciaRequest where
  method : String
  url : Option String
  headers : List (String × String)
deriving DecidableEq, Repr

/-- `headers.get(name)`: the value of the named header, if present. -/
def headersGet (headers : List (String × String)) (name : String) :
    Option String :=
  (headers.find? (fun p => p.1 = name)).map Prod.snd

/-- The part of a parsed URL the origin check consumes. -/
structure ParsedUrl where
  host : String
deriving DecidableEq, Repr

/-- The characters following the first `://`, when one occurs. -/
def dropScheme : List Char → Option (List Char)
  | [] => none
  | ':' :: '/' :: '/' :: rest => some rest
  | _ :: rest => dropScheme rest

/-- The authority part: everything up to the first slash. -/
def takeUntilSlash : List Char → List Char
  | [] => []
  | '/' :: _ => []
  | c :: rest => c :: takeUntilSlash rest

/-- Modelled from the spec: `safeParseUrl` (the `utils/request.js` helper is
not in the repository snapshot). Wraps the URL constructor: a string of the
shape `scheme://host/...` parses to its host (the authority up to the first
slash); anything else is undefined. -/
def safeParseUrl (s : String) : Option ParsedUrl :=
  match dropScheme s.data with
  | none => none
  | some rest =>
    if rest = [] then none
    else some ⟨String.mk (takeUntilSlash rest)⟩

/-- Modelled from the spec: `isAllowedOrigin` (the `utils/url.js` helper is
not in the repository snapshot). A request origin matches when its host
equals the expected host exactly, or — under the wildcard marker — is any
subdomain of the expected host, or — under an explicit list — is a
subdomain named in that list. -/
def isAllowedOrigin (origin : String) (host : String)
    (allowedSubdomains : SubdomainSetting) : Bool :=
  match (safeParseUrl origin).map ParsedUrl.host with
  | none => false
  | some originHost =>
    originHost = host ||
    (match allowedSubdomains with
     | .wildcard =>
       Mysql2Adapter.charsMatchAt ("." ++ host).data.reverse
         originHost.data.reverse
     | .list subs => subs.any (fun sub => originHost = sub ++ "." ++ host))

/-- `isValidRequestOrigin(request, config)` from the source: a missing (or
empty) Origin header is invalid; the expected host is taken from
`config.host` whenever that field is not `null` (`config.host !== null` —
an absent, i.e. undefined, field also takes this branch), else from the
request URL, else from the named host header; the resolved host, if any,
is checked by `isAllowedOrigin` with `config.allowedSubDomains ?? []`. -/
def isValidRequestOrigin (request : LuciaRequest)
    (config : CSRFProtectionConfiguration) : Bool :=
  match headersGet request.headers "Origin" with
  | none => false
  | some requestOrigin =>
    if requestOrigin = "" then false
    else
      let host : Option String :=
        if config.host ≠ TSOpt.nullv then
          config.host.toOption
        else if request.url.isSome then
          (safeParseUrl (request.url.getD "")).map ParsedUrl.host
        else
          headersGet request.headers (config.hostHeader.getD "Host")
      match host with
      | some h =>
        isAllowedOrigin requestOrigin h
          (config.allowedSubDomains.getD (.list []))
      | none => false

/-- The `Session` object returned to request handlers. -/
structure Session where
  sessionId : String
  userId : String
  activePeriodExpiresAt : Int
  idlePeriodExpiresAt : Int
  state : SessionState
  fresh : Bool
deriving DecidableEq, Repr

/-- The result of one `auth.validateSession` call: a session, a thrown
`LuciaError`, or a thrown non-domain (storage/infrastructure) error. -/
inductive ValidateOutcome
  | ok (session : Session)
  | luciaError (m : LuciaErrorMsg)
  | otherError (message : String)
deriving DecidableEq, Repr

/-- A promise held by the request object: settled with a value, or never
settling (its executor threw instead of resolving). -/
inductive PromiseOutcome
  | resolved (session : Option Session)
  | unsettled
deriving DecidableEq, Repr

/-- The `Auth` collaborator as `AuthRequest` sees it, over a storage state
`σ` threaded through `validateSession`. -/
structure AuthApi (σ : Type) where
  validateSession : String → σ → ValidateOutcome × σ
  readSessionCookie : Option String → Option String
  readBearerToken : Option String → Option String

/-- The mutable fields of an `AuthRequest` instance, plus the observable
side effects (cookie writes, number of storage validations) and the
storage state. -/
structure ReqState (σ : Type) where
  validatePromise : Option PromiseOutcome
  validateBearerTokenPromise : Option PromiseOutcome
  storedSessionId : Option String
  bearerToken : Option String
  cookieWrites : List (Option String)
  queries : Nat
  store : σ
deriving Repr

/-- The `csrfProtection` constructor option: a boolean or a configuration
object. -/
inductive CsrfSetting
  | flag (b : Bool)
  | config (c : CSRFProtectionConfiguration)
deriving Repr

/-- The `RequestContext` handed to the constructor (the `setCookie` callback
is modelled by recording writes in `ReqState.cookieWrites`). -/
structure RequestContext where
  sessionCookie : Option String
  request : LuciaRequest
deriving Repr

/-- The `AuthRequest` constructor: resolves the stored session cookie only
when CSRF protection is disabled or the request origin validates, and
independently extracts the bearer token from the Authorization header. -/
def authRequestInit {σ : Type} (api : AuthApi σ) (store : σ)
    (requestContext : RequestContext) (csrfProtection : CsrfSetting) :
    ReqState σ :=
  let csrfProtectionConfig :=
    match csrfProtection with
    | .config c => c
    | .flag _ => {}
  let csrfProtectionEnabled :=
    match csrfProtection with
    | .flag false => false
    | _ => true
  let storedSessionId :=
    if !csrfProtectionEnabled ||
        isValidRequestOrigin requestContext.request csrfProtectionConfig then
      (requestContext.sessionCookie).orElse (fun _ =>
        api.readSessionCookie
          (headersGet requestContext.request.headers "Cookie"))
    else
      none
  { validatePromise := none
    validateBearerTokenPromise := none
    storedSessionId := storedSessionId
    bearerToken :=
      api.readBearerToken
        (headersGet requestContext.request.headers "Authorization")
    cookieWrites := []
    queries := 0
    store := store }

/-- The private `setSessionCookie`: skips when the stored id already equals
the new one, otherwise records the new id and emits one cookie write
(`none` encodes the clearing cookie). -/
def setSessionCookie {σ : Type} (st : ReqState σ) (session : Option Session) :
    ReqState σ :=
  let sessionId := session.map Session.sessionId
  if st.storedSessionId = sessionId then st
  else
    { st with
      storedSessionId := sessionId
      cookieWrites := st.cookieWrites ++ [sessionId] }

/-- `AuthRequest.validate()`: returns the memoized promise when present;
otherwise resolves `none` without touching storage when no cookie credential
was stored, else calls `auth.validateSession` once — a fresh session
triggers a cookie rewrite, a `LuciaError` is absorbed into `none` plus a
cookie-clearing write, and any other thrown error leaves the memoized
promise unsettled (the executor threw instead of resolving). -/
def validate {σ : Type} (api : AuthApi σ) (st : ReqState σ) :
    PromiseOutcome × ReqState σ :=
  match st.validatePromise with
  | some p => (p, st)
  | none =>
    match st.storedSessionId with
    | none =>
      let p := PromiseOutcome.resolved none
      (p, { st with validatePromise := some p })
    | some storedSessionId =>
      let r := api.validateSession storedSessionId st.store
      let st1 := { st with store := r.2, queries := st.queries + 1 }
      match r.1 with
      | .ok session =>
        let st2 :=
          if session.fresh then setSessionCookie st1 (some session) else st1
        let p := PromiseOutcome.resolved (some session)
        (p, { st2 with validatePromise := some p })
      | .luciaError _ =>
        let st2 := setSessionCookie st1 none
        let p := PromiseOutcome.resolved none
        (p, { st2 with validatePromise := some p })
      | .otherError _ =>
        (PromiseOutcome.unsettled,
         { st1 with validatePromise := some PromiseOutcome.unsettled })

/-- `AuthRequest.validateBearerToken()`, embedded faithfully to the source:
the memo check reads `validateBearerTokenPromise`, but the hit branch
returns `this.validatePromise`, and the computed promise is likewise stored
into `this.validatePromise` — `validateBearerTokenPromise` is never
assigned anywhere. -/
def validateBearerToken {σ : Type} (api : AuthApi σ) (st : ReqState σ) :
    PromiseOutcome × ReqState σ :=
  match st.validateBearerTokenPromise with
  | some _ => (st.validatePromise.getD (PromiseOutcome.resolved none), st)
  | none =>
    match st.bearerToken with
    | none =>
      let p := PromiseOutcome.resolved none
      (p, { st with validatePromise := some p })
    | some bearerToken =>
      let r := api.validateSession bearerToken st.store
      let st1 := { st with store := r.2, queries := st.queries + 1 }
      match r.1 with
      | .ok session =>
        let p := PromiseOutcome.resolved (some session)
        (p, { st1 with validatePromise := some p })
      | .luciaError _ =>
        let p := PromiseOutcome.resolved none
        (p, { st1 with validatePromise := some p })
      | .otherError _ =>
        (PromiseOutcome.unsettled,
         { st1 with validatePromise := some PromiseOutcome.unsettled })

end Request

namespace Core
/-!
The lucia core session manager is not in the repository snapshot; the
operations the request layer calls are modelled from the specification.
-/

open Lucia

/-- A stored session row together with its attribute bag. -/
structure StoredSession where
  id : String
  user_id : String
  active_expires : Int
  idle_expires : Int
  attributes : List (String × String)
deriving DecidableEq, Repr

/-- The configuration and per-call inputs of the session manager: the
injected clock reading, the two configured periods, and the identifier the
token generator would produce for a renewal. -/
structure SessionConfig where
  now : Int
  activePeriod : Int
  idlePeriod : Int
  freshSessionId : String
deriving Repr

/-- The `Session` object built from a stored row. -/
def sessionOfRow (row : StoredSession) (state : SessionState) (fresh : Bool) :
    Request.Session :=
  { sessionId := row.id
    userId := row.user_id
    activePeriodExpiresAt := row.active_expires
    idlePeriodExpiresAt := row.idle_expires
    state := state
    fresh := fresh }

/-- The replacement row an idle renewal inserts: a fresh identifier, the
same user, recomputed expiries, and the attribute values copied verbatim. -/
def renewedRow (cfg : SessionConfig) (row : StoredSession) : StoredSession :=
  { id := cfg.freshSessionId
    user_id := row.user_id
    active_expires := cfg.now + cfg.activePeriod
    idle_expires := cfg.now + cfg.activePeriod + cfg.idlePeriod
    attributes := row.attributes }

/-- Modelled from the spec: `Auth.validateSession` (validate-and-renew; the
lucia core file is not in the repository snapshot). An absent row fails
`AUTH_INVALID_SESSION_ID`; an active session is returned as-is with
`fresh = false`; an idle session is renewed — the old row is deleted and a
fresh row with a new id, the same user and the same attributes is inserted,
returned with `fresh = true`; a dead session fails
`AUTH_INVALID_SESSION_ID` without deleting the row. -/
def validateSession (cfg : SessionConfig) (sessionId : String)
    (db : List StoredSession) :
    Request.ValidateOutcome × List StoredSession :=
  match db.find? (fun r => r.id = sessionId) with
  | none => (.luciaError .AUTH_INVALID_SESSION_ID, db)
  | some row =>
    match sessionState cfg.now row.active_expires row.idle_expires with
    | .active => (.ok (sessionOfRow row .active false), db)
    | .dead => (.luciaError .AUTH_INVALID_SESSION_ID, db)
    | .idle =>
      (.ok (sessionOfRow (renewedRow cfg row) .active true),
       (db.filter (fun r => r.id ≠ sessionId)) ++ [renewedRow cfg row])

/-- Modelled from the spec: `Auth.readBearerToken` parses an
`Authorization: Bearer <token>` header value (the core file is not in the
repository snapshot). -/
def readBearerToken : Option String → Option String
  | none => none
  | some header =>
    let parts := (Util.splitChars ' ' header.data).map String.mk
    if parts.head? = some "Bearer" then parts.get? 1 else none

/-- Modelled from the spec: `Auth.readSessionCookie` extracts the named
cookie value from a raw Cookie header; malformed headers yield none (the
core file is not in the repository snapshot). -/
def readSessionCookie (cookieName : String) : Option String → Option String
  | none => none
  | some header =>
    (((Util.splitChars ';' header.data).map
        (fun part => if part.head? = some ' ' then part.tail else part)).filterMap
      (fun part =>
        match Util.splitChars '=' part with
        | [n, v] =>
          if String.mk n = cookieName then some (String.mk v) else none
        | _ => none)).head?

/-- The `Auth` collaborator assembled from the spec-modelled core, storing
sessions as a row list. -/
def coreApi (cfg : SessionConfig) : Request.AuthApi (List StoredSession) :=
  { validateSession := fun sid db => validateSession cfg sid db
    readSessionCookie := readSessionCookie "auth_session"
    readBearerToken := readBearerToken }

end Core

/-! ## Claim theorems -/

section ClaimC6

/-- C6: for all timestamps `(now, a, i)` with `a < i` the expiration-state
function yields exactly one of the three states, with active iff `now < a`,
idle iff `a ≤ now < i`, dead iff `now ≥ i`; at the boundaries `now = a`
yields idle and `now = i` yields dead. -/
theorem sessionState_spec (now a i : Int) (h : a < i) :
    (Lucia.sessionState now a i = .active ↔ now < a) ∧
    (Lucia.sessionState now a i = .idle ↔ a ≤ now ∧ now < i) ∧
    (Lucia.sessionState now a i = .dead ↔ i ≤ now) ∧
    Lucia.sessionState a a i = .idle ∧
    Lucia.sessionState i a i = .dead := by
  refine ⟨?_, ?_, ?_, ?_, ?_⟩ <;>
    simp only [Lucia.sessionState] <;>
    split_ifs <;> (try simp_all) <;> omega

/-- Witness for C6 at `(now, a, i) = (5, 3, 7)`. -/
theorem sessionState_spec_witness :
    (3 : Int) < 7 ∧
    ((Lucia.sessionState 5 3 7 = .active ↔ (5 : Int) < 3) ∧
     (Lucia.sessionState 5 3 7 = .idle ↔ (3 : Int) ≤ 5 ∧ (5 : Int) < 7) ∧
     (Lucia.sessionState 5 3 7 = .dead ↔ (7 : Int) ≤ 5) ∧
     Lucia.sessionState 3 3 7 = .idle ∧
     Lucia.sessionState 7 3 7 = .dead) :=
  ⟨by norm_num, sessionState_spec 5 3 7 (by norm_num)⟩

end ClaimC6

section ClaimC9

open Mysql2Adapter

/-- C9: unlinking preserves primary keys — for any key row present in
storage, if its `primary_key` flag is true it survives
`deleteNonPrimaryKey` on any key id unchanged, and a row removed by the
operation necessarily had `primary_key = false` and the targeted id. -/
theorem deleteNonPrimaryKey_preserves_primary
    (keys : List KeyRow) (keyId : String) (k : KeyRow) (hk : k ∈ keys) :
    (k.primary_key = true →
      k ∈ PrismaAdapter.deleteNonPrimaryKey keys keyId) ∧
    (k ∉ PrismaAdapter.deleteNonPrimaryKey keys keyId →
      k.id = keyId ∧ k.primary_key = false) := by
  unfold PrismaAdapter.deleteNonPrimaryKey
  constructor
  · intro hp
    refine List.mem_filter.mpr ⟨hk, ?_⟩
    simp [hp]
  · intro hnot
    by_contra hcon
    refine hnot (List.mem_filter.mpr ⟨hk, ?_⟩)
    exact decide_eq_true hcon

/-- Witness for C9: a concrete primary key row survives an unlink aimed at
its own id. -/
theorem deleteNonPrimaryKey_preserves_primary_witness :
    ((⟨"github:42", "u1", none, true⟩ : KeyRow).primary_key = true →
      (⟨"github:42", "u1", none, true⟩ : KeyRow) ∈
        PrismaAdapter.deleteNonPrimaryKey
          [⟨"github:42", "u1", none, true⟩, ⟨"email:a", "u1", some "h", false⟩]
          "github:42") ∧
    ((⟨"github:42", "u1", none, true⟩ : KeyRow) ∉
        PrismaAdapter.deleteNonPrimaryKey
          [⟨"github:42", "u1", none, true⟩, ⟨"email:a", "u1", some "h", false⟩]
          "github:42" →
      (⟨"github:42", "u1", none, true⟩ : KeyRow).id = "github:42" ∧
      (⟨"github:42", "u1", none, true⟩ : KeyRow).primary_key = false) :=
  deleteNonPrimaryKey_preserves_primary
    [⟨"github:42", "u1", none, true⟩, ⟨"email:a", "u1", some "h", false⟩]
    "github:42" ⟨"github:42", "u1", none, true⟩ (by decide)

end ClaimC9

section ClaimC8

open Mysql2Adapter

/-- C8: the setSession catch block of the mysql2 adapter translates a
foreign-key violation on `user_id` (errno 1452, message naming the column)
into `AUTH_INVALID_USER_ID`, a duplicate-primary-key violation
(`ER_DUP_ENTRY`/1062, message naming `PRIMARY`) into
`AUTH_DUPLICATE_SESSION_ID`, and rethrows any error matching neither
signature verbatim; correspondingly, `setSession` on a database state whose
insert violates the respective constraint fails with the translated domain
error and leaves the state unchanged. -/
theorem setSession_error_translation (e : QueryError) :
    (e.errno = 1452 → strContains e.message "(`user_id`)" = true →
      setSessionCatch e = .lucia .AUTH_INVALID_USER_ID) ∧
    (e.errno = 1062 → e.code = "ER_DUP_ENTRY" →
      strContains e.message "PRIMARY" = true →
      setSessionCatch e = .lucia .AUTH_DUPLICATE_SESSION_ID) ∧
    (¬ (e.errno = 1452 ∧ strContains e.message "(`user_id`)" = true) →
      ¬ (e.code = "ER_DUP_ENTRY" ∧ strContains e.message "PRIMARY" = true) →
      setSessionCatch e = .raw e) ∧
    (∀ (db : MySQLDB) (s : SessionRow),
      db.sessions.any (fun r => r.id = s.id) = false →
      db.users.any (fun r => r.id = s.user_id) = false →
      setSession db s = (some (.lucia .AUTH_INVALID_USER_ID), db)) ∧
    (∀ (db : MySQLDB) (s : SessionRow),
      db.sessions.any (fun r => r.id = s.id) = true →
      setSession db s = (some (.lucia .AUTH_DUPLICATE_SESSION_ID), db)) := by
  refine ⟨?_, ?_, ?_, ?_, ?_⟩
  · intro h1 h2
    simp [setSessionCatch, h1, h2]
  · intro h1 h2 h3
    simp [setSessionCatch, h1, h2, h3]
  · intro h1 h2
    unfold setSessionCatch
    rw [if_neg h1, if_neg h2]
  · intro db s h1 h2
    have hc : setSessionCatch fkUserIdError = .lucia .AUTH_INVALID_USER_ID := by
      decide
    simp [setSession, insertSessionRow, h1, h2, hc]
  · intro db s h1
    have hc : setSessionCatch dupPrimaryError =
        .lucia .AUTH_DUPLICATE_SESSION_ID := by
      decide
    simp [setSession, insertSessionRow, h1, hc]

/-- Witness for C8 at concrete errors and database states. -/
theorem setSession_error_translation_witness :
    (setSessionCatch ⟨"ER_CON_COUNT_ERROR", 1040, "Too many connections"⟩ =
      .raw ⟨"ER_CON_COUNT_ERROR", 1040, "Too many connections"⟩) ∧
    (setSession ⟨[], [], []⟩ ⟨"s1", "ghost", 0, 0⟩ =
      (some (.lucia .AUTH_INVALID_USER_ID), ⟨[], [], []⟩)) ∧
    (setSession ⟨[⟨"u1", []⟩], [], [⟨"s1", "u1", 0, 0⟩]⟩ ⟨"s1", "u1", 5, 9⟩ =
      (some (.lucia .AUTH_DUPLICATE_SESSION_ID),
        ⟨[⟨"u1", []⟩], [], [⟨"s1", "u1", 0, 0⟩]⟩)) :=
  ⟨(setSession_error_translation
      ⟨"ER_CON_COUNT_ERROR", 1040, "Too many connections"⟩).2.2.1
      (by decide) (by decide),
   (setSession_error_translation
      ⟨"ER_CON_COUNT_ERROR", 1040, "Too many connections"⟩).2.2.2.1
      ⟨[], [], []⟩ ⟨"s1", "ghost", 0, 0⟩ (by decide) (by decide),
   (setSession_error_translation
      ⟨"ER_CON_COUNT_ERROR", 1040, "Too many connections"⟩).2.2.2.2
      ⟨[⟨"u1", []⟩], [], [⟨"s1", "u1", 0, 0⟩]⟩ ⟨"s1", "u1", 5, 9⟩ (by decide)⟩

end ClaimC8

section ClaimC7

open Mysql2Adapter

/-- C7 (code bug): `setUser` with a key descriptor is not atomic. The
transaction wrapper begins/commits/rolls back on a connection checked out
from the pool, while the user and key inserts run through the pool-scoped
operator, so the rollback cannot undo them. At this input the user insert
succeeds and the key insert then fails with a duplicate key id: the call
fails with `AUTH_DUPLICATE_KEY_ID`, yet the user row `u1` is left behind in
storage with no key bound to it — exactly the partial creation the claim
says must never be observable. -/
theorem setUser_with_key_not_atomic :
    (setUser ⟨[], [⟨"username:ada", "u0", none, true⟩], []⟩ "u1"
        [("username", "ada")]
        (some ⟨"username:ada", "u1", some "h", true⟩)).1 =
      some (.lucia .AUTH_DUPLICATE_KEY_ID) ∧
    (setUser ⟨[], [⟨"username:ada", "u0", none, true⟩], []⟩ "u1"
        [("username", "ada")]
        (some ⟨"username:ada", "u1", some "h", true⟩)).2.users =
      [⟨"u1", [("username", "ada")]⟩] ∧
    (setUser ⟨[], [⟨"username:ada", "u0", none, true⟩], []⟩ "u1"
        [("username", "ada")]
        (some ⟨"username:ada", "u1", some "h", true⟩)).2.keys.all
      (fun kk => kk.user_id ≠ "u1") = true := by
  decide

end ClaimC7

section ClaimC10

open Query

theorem phOfChunks_append (a b : List Chunk) :
    phOfChunks (a ++ b) = phOfChunks a ++ phOfChunks b := by
  induction a with
  | nil => rfl
  | cons c rest ih => cases c <;> simp [phOfChunks, ih]

theorem phOfChunks_intersperseText (sep : String) (l : List Chunk) :
    phOfChunks (intersperseText sep l) = phOfChunks l := by
  induction l with
  | nil => rfl
  | cons c rest ih =>
    cases rest with
    | nil => cases c <;> rfl
    | cons d rest2 => cases c <;> simp [intersperseText, phOfChunks, ih]

theorem phOfChunks_joinChunkGroups (sep : String) (gs : List (List Chunk)) :
    phOfChunks (joinChunkGroups sep gs) = (gs.map phOfChunks).flatten := by
  induction gs with
  | nil => rfl
  | cons g rest ih =>
    cases rest with
    | nil => simp [joinChunkGroups]
    | cons g2 rest2 =>
      simp [joinChunkGroups, phOfChunks_append, phOfChunks, ih]

theorem phOfChunks_map_placeholder (l : List Nat) :
    phOfChunks (l.map Chunk.placeholder) = l := by
  induction l <;> simp_all [phOfChunks]

theorem flatten_map_singleton {α β : Type} (f : α → β) (l : List α) :
    (l.map (fun x => [f x])).flatten = l.map f := by
  induction l <;> simp_all

theorem map_index_shift (pc n : Nat) :
    (List.range n).map (fun i => pc + i + 1) = List.range' (pc + 1) n := by
  have h : (fun i => pc + i + 1) = (fun i => (pc + 1) + i) := by
    funext i; omega
  rw [h, List.range_eq_range']
  simpa using List.map_add_range' (pc + 1) 0 n 1

theorem placeholderList_ph (pc n : Nat) :
    phOfChunks (placeholderList pc n) = List.range' (pc + 1) n := by
  unfold placeholderList
  rw [show (fun i => Chunk.placeholder (pc + i + 1)) =
      (Chunk.placeholder ∘ fun i => pc + i + 1) from rfl,
    ← List.map_map, phOfChunks_map_placeholder, map_index_shift]

theorem enum_ph_flatten {α : Type} (l : List α) (pc : Nat) :
    ((l.enum.map (fun p => [pc + p.1 + 1])).flatten) =
      List.range' (pc + 1) l.length := by
  rw [show (fun (p : Nat × α) => [pc + p.1 + 1]) =
      ((fun i => [pc + i + 1]) ∘ Prod.fst) from rfl,
    ← List.map_map, List.enum_map_fst, flatten_map_singleton, map_index_shift]

/-- The per-block invariant: every block resolved against `paramCount`
already-emitted parameters contributes exactly the consecutive
placeholders `paramCount+1 .. paramCount+params.length`, in order. -/
theorem resolveQueryBlock_ph (b : Block) (pc : Nat) :
    phOfChunks (resolveQueryBlock b pc).queryChunk =
      List.range' (pc + 1) (resolveQueryBlock b pc).params.length := by
  cases b with
  | deleteFrom table => simp [resolveQueryBlock, phOfChunks]
  | innerJoin tt tc c => simp [resolveQueryBlock, phOfChunks]
  | returning cols => simp [resolveQueryBlock, phOfChunks]
  | selectFrom table cols => simp [resolveQueryBlock, phOfChunks]
  | whereCond wb => simp [resolveQueryBlock, phOfChunks]
  | insertInto table values =>
    simp [resolveQueryBlock, phOfChunks_append, phOfChunks,
      phOfChunks_intersperseText, placeholderList_ph]
  | update table values =>
    simp only [resolveQueryBlock, phOfChunks_append, phOfChunks,
      List.length_map, List.append_eq, List.nil_append]
    rw [phOfChunks_joinChunkGroups, List.map_map]
    rw [show (phOfChunks ∘ fun (p : Nat × String) =>
        [Chunk.text (escapeName p.2 ++ " = "),
         Chunk.placeholder (pc + p.1 + 1)]) =
      (fun (p : Nat × String) => [pc + p.1 + 1]) from rfl]
    rw [enum_ph_flatten]
    simp
  | andCond whereBlocks =>
    simp only [resolveQueryBlock, phOfChunks, List.map_map]
    rw [phOfChunks_joinChunkGroups, List.map_map]
    rw [show (phOfChunks ∘ ResolvedBlock.queryChunk ∘
        fun (p : Nat × WhereBlock) =>
        (⟨[Chunk.text (p.2.column ++ " " ++ p.2.comparator ++ " "),
           Chunk.placeholder (pc + 1 + p.1)],
          [p.2.value]⟩ : ResolvedBlock)) =
      (fun (p : Nat × WhereBlock) => [pc + 1 + p.1]) from rfl]
    rw [show (ResolvedBlock.params ∘ fun (p : Nat × WhereBlock) =>
        (⟨[Chunk.text (p.2.column ++ " " ++ p.2.comparator ++ " "),
           Chunk.placeholder (pc + 1 + p.1)],
          [p.2.value]⟩ : ResolvedBlock)) =
      (fun (p : Nat × WhereBlock) => [p.2.value]) from rfl]
    rw [show (fun (p : Nat × WhereBlock) => [pc + 1 + p.1]) =
        (fun (p : Nat × WhereBlock) => [pc + p.1 + 1]) from by
      funext p; simp; omega]
    rw [enum_ph_flatten, flatten_map_singleton]
    simp

/-- The fold invariant of `resolveQueryBlocks`: if the chunks emitted so
far carry exactly the placeholders `1 .. params.length` in order, the same
holds after resolving any further list of blocks. -/
theorem resolveQueryBlocks_fold_inv (blocks : List Block)
    (chunks : List (List Chunk)) (params : List ColumnValue)
    (h : (chunks.map phOfChunks).flatten = List.range' 1 params.length) :
    (((blocks.foldl
        (fun (acc : List (List Chunk) × List ColumnValue) (queryBlock : Block) =>
          let resolvedBlock := resolveQueryBlock queryBlock acc.2.length
          (acc.1 ++ [resolvedBlock.queryChunk], acc.2 ++ resolvedBlock.params))
        (chunks, params)).1.map phOfChunks).flatten =
      List.range' 1 ((blocks.foldl
        (fun (acc : List (List Chunk) × List ColumnValue) (queryBlock : Block) =>
          let resolvedBlock := resolveQueryBlock queryBlock acc.2.length
          (acc.1 ++ [resolvedBlock.queryChunk], acc.2 ++ resolvedBlock.params))
        (chunks, params)).2.length)) := by
  induction blocks generalizing chunks params with
  | nil => simpa using h
  | cons b rest ih =>
    simp only [List.foldl_cons]
    apply ih
    rw [List.map_append, List.flatten_append, h]
    simp only [List.map_cons, List.map_nil, List.flatten_cons,
      List.flatten_nil, List.append_nil, List.length_append,
      resolveQueryBlock_ph]
    rw [show params.length + 1 = 1 + params.length from Nat.add_comm _ 1,
      List.range'_append_1]
    congr 1
    omega

/-- C10: for every list of query blocks, the resolved statement carries the
positional placeholders `$1 .. $N` consecutively in left-to-right order,
where `N` is the length of the returned parameter list — so the k-th
placeholder of the statement is bound to the k-th returned parameter. -/
theorem resolveQueryBlocks_placeholders (queryBlocks : List Block) :
    phOfChunks (resolveQueryBlocks queryBlocks).queryChunk =
      List.range' 1 (resolveQueryBlocks queryBlocks).params.length ∧
    (phOfChunks (resolveQueryBlocks queryBlocks).queryChunk).length =
      (resolveQueryBlocks queryBlocks).params.length := by
  have h := resolveQueryBlocks_fold_inv queryBlocks [] [] (by simp)
  have h1 : phOfChunks (resolveQueryBlocks queryBlocks).queryChunk =
      List.range' 1 (resolveQueryBlocks queryBlocks).params.length := by
    simpa [resolveQueryBlocks, phOfChunks_joinChunkGroups] using h
  exact ⟨h1, by rw [h1]; simp⟩

end ClaimC10

section ClaimC1

open Request Lucia

/-- An auth collaborator whose storage returns a distinguishable session on
each successive validation call (the store counts calls). -/
def bearerApi : AuthApi Nat :=
  { validateSession := fun _ n =>
      (.ok ⟨if n = 0 then "first" else "second", "u1", 100, 200, .active,
        false⟩,
       n + 1)
    readSessionCookie := fun _ => none
    readBearerToken := Core.readBearerToken }

/-- A request carrying a bearer token. -/
def bearerReq : ReqState Nat :=
  authRequestInit bearerApi 0
    ⟨none, ⟨"GET", some "https://example.com/api",
      [("Authorization", "Bearer tok"), ("Origin", "https://example.com")]⟩⟩
    (.flag true)

/-- C1 (code bug): bearer validation is not memoized and the two caches are
not independent. The source checks `validateBearerTokenPromise` but stores
the computed promise into `validatePromise`, so `validateBearerTokenPromise`
is never assigned: a second `validateBearerToken()` queries storage again
(two queries, a different result), and a later `validate()` returns the
bearer result without any cookie validation ever reaching storage. -/
theorem validateBearerToken_memoization_bug :
    (validateBearerToken bearerApi bearerReq).1 =
      .resolved (some ⟨"first", "u1", 100, 200, .active, false⟩) ∧
    (validateBearerToken bearerApi
        (validateBearerToken bearerApi bearerReq).2).1 =
      .resolved (some ⟨"second", "u1", 100, 200, .active, false⟩) ∧
    (validateBearerToken bearerApi
        (validateBearerToken bearerApi bearerReq).2).2.queries = 2 ∧
    (validateBearerToken bearerApi
        (validateBearerToken bearerApi bearerReq).2).2.validateBearerTokenPromise
      = none ∧
    (validate bearerApi
        (validateBearerToken bearerApi
          (validateBearerToken bearerApi bearerReq).2).2).1 =
      .resolved (some ⟨"second", "u1", 100, 200, .active, false⟩) ∧
    (validate bearerApi
        (validateBearerToken bearerApi
          (validateBearerToken bearerApi bearerReq).2).2).2.queries = 2 := by
  decide

end ClaimC1

section ClaimC5

open Request

/-- A request whose URL host equals the host of its Origin header; no host
is configured. -/
def c5Request : LuciaRequest :=
  ⟨"POST", some "https://example.com/login",
    [("Origin", "https://example.com"), ("Host", "example.com")]⟩

/-- C5 (code bug): the expected-host fallback chain is dead. The source
guards the first branch with `config.host !== null`, which an absent
(undefined) `host` also satisfies, so with no configured host the expected
host resolves to `null` and verification fails — even though the request
URL parses to exactly the host of the Origin header and that origin would
be accepted against it. -/
theorem origin_host_fallback_dead :
    isValidRequestOrigin c5Request {} = false ∧
    safeParseUrl "https://example.com/login" = some ⟨"example.com"⟩ ∧
    isAllowedOrigin "https://example.com" "example.com"
      (SubdomainSetting.list []) = true := by
  decide

end ClaimC5

section ClaimC4

open Request

/-- An auth collaborator that counts validations in its store. -/
def countApi : AuthApi Nat :=
  { validateSession := fun _ n =>
      (.ok ⟨"s", "u", 0, 0, .active, false⟩, n + 1)
    readSessionCookie := fun c => c
    readBearerToken := fun _ => none }

theorem isValidRequestOrigin_none_of_origin_missing
    (request : LuciaRequest) (config : CSRFProtectionConfiguration)
    (horigin : headersGet request.headers "Origin" = none) :
    isValidRequestOrigin request config = false := by
  unfold isValidRequestOrigin
  rw [horigin]

/-- C4: with CSRF protection enabled and no Origin header, origin
verification fails and the request is treated as anonymous — the
constructor resolves no stored cookie credential regardless of any cookie
present, and a later `validate()` resolves none without a single storage
query. -/
theorem anonymous_when_origin_missing {σ : Type} (api : AuthApi σ) (store : σ)
    (ctx : RequestContext) (csrf : CsrfSetting)
    (henabled : csrf ≠ CsrfSetting.flag false)
    (horigin : headersGet ctx.request.headers "Origin" = none) :
    (authRequestInit api store ctx csrf).storedSessionId = none ∧
    (validate api (authRequestInit api store ctx csrf)).1 =
      PromiseOutcome.resolved none ∧
    (validate api (authRequestInit api store ctx csrf)).2.queries = 0 := by
  have hvalid : ∀ c, isValidRequestOrigin ctx.request c = false := fun c =>
    isValidRequestOrigin_none_of_origin_missing ctx.request c horigin
  have hstored : (authRequestInit api store ctx csrf).storedSessionId = none := by
    cases csrf with
    | flag b =>
      cases b with
      | false => exact absurd rfl henabled
      | true => simp [authRequestInit, hvalid]
    | config c => simp [authRequestInit, hvalid]
  refine ⟨hstored, ?_, ?_⟩ <;>
    · simp only [validate, hstored]
      simp [authRequestInit]

/-- Witness for C4: a request with a session cookie both in the context and
in the Cookie header, CSRF protection on, no Origin header. -/
theorem anonymous_when_origin_missing_witness :
    ((authRequestInit countApi 0
        ⟨some "stolen", ⟨"POST", none, [("Cookie", "auth_session=abc")]⟩⟩
        (CsrfSetting.flag true)).storedSessionId = none ∧
      (validate countApi (authRequestInit countApi 0
        ⟨some "stolen", ⟨"POST", none, [("Cookie", "auth_session=abc")]⟩⟩
        (CsrfSetting.flag true))).1 = PromiseOutcome.resolved none ∧
      (validate countApi (authRequestInit countApi 0
        ⟨some "stolen", ⟨"POST", none, [("Cookie", "auth_session=abc")]⟩⟩
        (CsrfSetting.flag true))).2.queries = 0) :=
  anonymous_when_origin_missing countApi 0
    ⟨some "stolen", ⟨"POST", none, [("Cookie", "auth_session=abc")]⟩⟩
    (CsrfSetting.flag true) (by simp) rfl

end ClaimC4

section ClaimC2

open Request Lucia

/-- The session-manager configuration for the concrete C2 run. -/
def cfgC2 : Core.SessionConfig := ⟨150, 1000, 2000, "sid2"⟩

/-- A request presenting the idle session `sid1` as a bearer token. -/
def bearerReq2 : ReqState (List Core.StoredSession) :=
  authRequestInit (Core.coreApi cfgC2)
    [⟨"sid1", "u1", 100, 200, [("country", "US")]⟩]
    ⟨none, ⟨"GET", none, [("Authorization", "Bearer sid1")]⟩⟩
    (CsrfSetting.flag false)

/-- An auth collaborator whose validation throws a non-domain storage
error. -/
def failApi : AuthApi Nat :=
  { validateSession := fun _ n => (.otherError "connection refused", n)
    readSessionCookie := fun _ => none
    readBearerToken := Core.readBearerToken }

/-- A request presenting a bearer token against `failApi`. -/
def failReq : ReqState Nat :=
  authRequestInit failApi 0
    ⟨none, ⟨"GET", none, [("Authorization", "Bearer tok")]⟩⟩
    (CsrfSetting.flag false)

/-- C2 counterexample: `validateBearerToken()` on an idle session does not
have get semantics — the presented row `sid1` is deleted from storage, a
replacement row `sid2` is inserted, and the fresh replacement is returned
instead of the idle session as-is; moreover a non-domain failure does not
propagate to the caller: the promise never settles. -/
theorem validateBearerToken_get_semantics_counterexample :
    (validateBearerToken (Core.coreApi cfgC2) bearerReq2).2.store.find?
        (fun r => r.id = "sid1") = none ∧
    (validateBearerToken (Core.coreApi cfgC2) bearerReq2).2.store =
      [⟨"sid2", "u1", 1150, 3150, [("country", "US")]⟩] ∧
    (validateBearerToken (Core.coreApi cfgC2) bearerReq2).1 =
      .resolved (some ⟨"sid2", "u1", 1150, 3150, .active, true⟩) ∧
    (validateBearerToken failApi failReq).1 = .unsettled := by
  decide

/-- C2 (amended): `validateBearerToken()` resolves the session via the
renewing `validateSession` path, not get semantics — an absent or dead or
unknown token yields none with storage unchanged; an active session is
returned as-is with storage unchanged; an idle session is renewed (the
presented row is deleted, a replacement inserted) and the fresh replacement
is returned; a non-domain failure is not re-raised to the caller — the
validation promise never settles. -/
theorem validateBearerToken_renewing_semantics :
    (∀ (cfg : Core.SessionConfig) (st : ReqState (List Core.StoredSession))
      (tok : String),
      st.bearerToken = some tok → st.validateBearerTokenPromise = none →
      ((st.store.find? (fun row => row.id = tok) = none →
        (validateBearerToken (Core.coreApi cfg) st).1 =
          PromiseOutcome.resolved none ∧
        (validateBearerToken (Core.coreApi cfg) st).2.store = st.store) ∧
       (∀ row, st.store.find? (fun row2 => row2.id = tok) = some row →
        (sessionState cfg.now row.active_expires row.idle_expires = .active →
          (validateBearerToken (Core.coreApi cfg) st).1 =
            PromiseOutcome.resolved (some (Core.sessionOfRow row .active false)) ∧
          (validateBearerToken (Core.coreApi cfg) st).2.store = st.store) ∧
        (sessionState cfg.now row.active_expires row.idle_expires = .dead →
          (validateBearerToken (Core.coreApi cfg) st).1 =
            PromiseOutcome.resolved none ∧
          (validateBearerToken (Core.coreApi cfg) st).2.store = st.store) ∧
        (sessionState cfg.now row.active_expires row.idle_expires = .idle →
          (validateBearerToken (Core.coreApi cfg) st).1 =
            PromiseOutcome.resolved
              (some (Core.sessionOfRow (Core.renewedRow cfg row) .active true)) ∧
          (validateBearerToken (Core.coreApi cfg) st).2.store =
            st.store.filter (fun r2 => r2.id ≠ tok) ++
              [Core.renewedRow cfg row])))) ∧
    (∀ {σ : Type} (api : AuthApi σ) (st : ReqState σ),
      st.bearerToken = none → st.validateBearerTokenPromise = none →
      (validateBearerToken api st).1 = PromiseOutcome.resolved none) ∧
    (∀ {σ : Type} (api : AuthApi σ) (st : ReqState σ) (tok msg : String)
      (s2 : σ),
      st.bearerToken = some tok → st.validateBearerTokenPromise = none →
      api.validateSession tok st.store = (.otherError msg, s2) →
      (validateBearerToken api st).1 = PromiseOutcome.unsettled) := by
  refine ⟨?_, ?_, ?_⟩
  · intro cfg st tok hb hm
    constructor
    · intro hfind
      simp [validateBearerToken, hm, hb, Core.coreApi, Core.validateSession,
        hfind]
    · intro row hfind
      refine ⟨?_, ?_, ?_⟩ <;> intro hstate <;>
        simp [validateBearerToken, hm, hb, Core.coreApi, Core.validateSession,
          hfind, hstate]
  · intro σ api st hb hm
    simp [validateBearerToken, hm, hb]
  · intro σ api st tok msg s2 hb hm hcall
    simp [validateBearerToken, hm, hb, hcall]

/-- Witness for C2 (amended): an active bearer session is returned as-is
with storage unchanged, and a non-domain failure leaves the promise
unsettled. -/
theorem validateBearerToken_renewing_semantics_witness :
    ((validateBearerToken (Core.coreApi ⟨50, 1000, 2000, "new"⟩)
        (⟨none, none, none, some "sid1", [], 0,
          [⟨"sid1", "u1", 100, 200, []⟩]⟩ :
          ReqState (List Core.StoredSession))).1 =
      PromiseOutcome.resolved
        (some (Core.sessionOfRow ⟨"sid1", "u1", 100, 200, []⟩ .active false)) ∧
     (validateBearerToken (Core.coreApi ⟨50, 1000, 2000, "new"⟩)
        (⟨none, none, none, some "sid1", [], 0,
          [⟨"sid1", "u1", 100, 200, []⟩]⟩ :
          ReqState (List Core.StoredSession))).2.store =
      (⟨none, none, none, some "sid1", [], 0,
        [⟨"sid1", "u1", 100, 200, []⟩]⟩ :
        ReqState (List Core.StoredSession)).store) ∧
    (validateBearerToken failApi
      (⟨none, none, none, some "tok", [], 0, 0⟩ : ReqState Nat)).1 =
      PromiseOutcome.unsettled :=
  ⟨((validateBearerToken_renewing_semantics.1 ⟨50, 1000, 2000, "new"⟩
      (⟨none, none, none, some "sid1", [], 0,
        [⟨"sid1", "u1", 100, 200, []⟩]⟩ :
        ReqState (List Core.StoredSession)) "sid1" rfl rfl).2
      ⟨"sid1", "u1", 100, 200, []⟩ (by decide)).1 (by decide),
   validateBearerToken_renewing_semantics.2.2 failApi
     (⟨none, none, none, some "tok", [], 0, 0⟩ : ReqState Nat)
     "tok" "connection refused" 0 rfl rfl rfl⟩

end ClaimC2

section ClaimC3

open Request Lucia

/-- An auth collaborator whose validation throws the domain error
`AUTH_DUPLICATE_SESSION_ID` (an error kind other than
`AUTH_INVALID_SESSION_ID`). -/
def dupErrApi : AuthApi Nat :=
  { validateSession := fun _ n => (.luciaError .AUTH_DUPLICATE_SESSION_ID, n)
    readSessionCookie := fun c => c
    readBearerToken := fun _ => none }

/-- A request with a resolved session cookie, validated against
`dupErrApi`. -/
def cookieReq : ReqState Nat :=
  authRequestInit dupErrApi 0 ⟨some "sid", ⟨"POST", none, []⟩⟩
    (CsrfSetting.flag false)

/-- C3 counterexample: when the underlying validation fails with the domain
error kind `AUTH_DUPLICATE_SESSION_ID` — not `AUTH_INVALID_SESSION_ID` —
`validate()` does not re-raise it: the call resolves none, clears the
cookie, and erases the stored id, exactly as for an invalid session id. -/
theorem validate_narrowing_counterexample :
    (validate dupErrApi cookieReq).1 = PromiseOutcome.resolved none ∧
    (validate dupErrApi cookieReq).2.cookieWrites = [none] ∧
    (validate dupErrApi cookieReq).2.storedSessionId = none := by
  decide

/-- C3 (amended): during cookie validation `validate()` absorbs every
`LuciaError` kind, not only `AUTH_INVALID_SESSION_ID` — any domain error
yields none plus a cookie-clearing rewrite; an error that is not a
`LuciaError` is not absorbed, but it is not re-raised to the caller either:
the memoized validation promise never settles and no cookie write is
emitted. A successful validation resolves the session. -/
theorem validate_error_absorption :
    (∀ {σ : Type} (api : AuthApi σ) (st : ReqState σ) (sid : String)
      (k : LuciaErrorMsg) (s2 : σ),
      st.validatePromise = none → st.storedSessionId = some sid →
      api.validateSession sid st.store = (.luciaError k, s2) →
      (validate api st).1 = PromiseOutcome.resolved none ∧
      (validate api st).2.cookieWrites = st.cookieWrites ++ [none] ∧
      (validate api st).2.storedSessionId = none) ∧
    (∀ {σ : Type} (api : AuthApi σ) (st : ReqState σ) (sid msg : String)
      (s2 : σ),
      st.validatePromise = none → st.storedSessionId = some sid →
      api.validateSession sid st.store = (.otherError msg, s2) →
      (validate api st).1 = PromiseOutcome.unsettled ∧
      (validate api st).2.cookieWrites = st.cookieWrites) ∧
    (∀ {σ : Type} (api : AuthApi σ) (st : ReqState σ) (sid : String)
      (sess : Session) (s2 : σ),
      st.validatePromise = none → st.storedSessionId = some sid →
      api.validateSession sid st.store = (.ok sess, s2) →
      (validate api st).1 = PromiseOutcome.resolved (some sess)) := by
  refine ⟨?_, ?_, ?_⟩
  · intro σ api st sid k s2 hp hs hcall
    simp [validate, hp, hs, hcall, setSessionCookie]
  · intro σ api st sid msg s2 hp hs hcall
    simp [validate, hp, hs, hcall]
  · intro σ api st sid sess s2 hp hs hcall
    by_cases hfresh : sess.fresh <;>
      simp [validate, hp, hs, hcall, setSessionCookie, hfresh]

/-- Witness for C3 (amended) at the concrete `dupErrApi` request and a
concrete non-domain failure. -/
theorem validate_error_absorption_witness :
    ((validate dupErrApi cookieReq).1 = PromiseOutcome.resolved none ∧
     (validate dupErrApi cookieReq).2.cookieWrites =
       cookieReq.cookieWrites ++ [none] ∧
     (validate dupErrApi cookieReq).2.storedSessionId = none) ∧
    ((validate failApi
        (⟨none, none, some "sid", none, [], 0, 0⟩ : ReqState Nat)).1 =
      PromiseOutcome.unsettled ∧
     (validate failApi
        (⟨none, none, some "sid", none, [], 0, 0⟩ : ReqState Nat)).2.cookieWrites
      = (⟨none, none, some "sid", none, [], 0, 0⟩ : ReqState Nat).cookieWrites) :=
  ⟨validate_error_absorption.1 dupErrApi cookieReq "sid"
      .AUTH_DUPLICATE_SESSION_ID 0 (by decide) (by decide) (by decide),
   validate_error_absorption.2.1 failApi
      (⟨none, none, some "sid", none, [], 0, 0⟩ : ReqState Nat)
      "sid" "connection refused" 0 rfl rfl rfl⟩

end ClaimC3
